import Mathlib

/-!
Shallow embedding of `node_api_client.go` from `iotaledger/iota.lib.go`
(package `iota`): a thin JSON-over-HTTP client for a node's REST API.

Modelling choices:
* JSON bodies are modelled by the inductive `Json`; a response body is a
  stream whose read (`ioutil.ReadAll`) either fails or yields raw bytes,
  which are either malformed JSON or a parsed `Json` value.
* Go's `json.Unmarshal` into the two envelope structs and into the concrete
  response structs is embedded by explicit decoders that follow Go's
  semantics: a JSON `null` leaves the target unchanged, unknown object keys
  are ignored, and a top-level value that is neither `null` nor an object
  fails to unmarshal into a struct.
* Go errors are the inductive `NodeErr`; `fmt.Errorf("...: %w", err)`
  wrappers are constructors carrying the wrapped payload.
* The `http.Client` transport is a function from requests to either an
  error or a response; `http.NewRequest` is modelled as total (URL-parse
  failures are outside the analysed file's behaviour of interest).
* Body read/close bookkeeping (`ioutil.ReadAll` / `res.Body.Close()`) is
  tracked by `BodyFinal`, the state of the response body when the call
  returns.  Note the source registers `defer res.Body.Close()` only AFTER
  the `ReadAll` error check, and `do` returns before touching the body when
  no response object is requested.
-/

set_option autoImplicit false

namespace Iota

/-- A JSON value, the parse result of a wire body. -/
inductive Json where
  | null
  | bool (b : Bool)
  | num (n : Int)
  | str (s : String)
  | arr (elems : List Json)
  | obj (fields : List (String × Json))

/-- Raw bytes of a body: either not valid JSON, or a parsed JSON value. -/
inductive RawBody where
  | malformed (text : String)
  | json (j : Json)

/-- First binding of a key in a JSON object, as Go's decoder matches struct
tags against object keys. -/
def lookupField (fields : List (String × Json)) (key : String) : Option Json :=
  match fields with
  | [] => none
  | (k, v) :: rest => if k = key then some v else lookupField rest key

/-- The sentinel error kinds of the `ErrHTTP*` package-level variables. -/
inductive HTTPErrKind where
  | badRequest
  | internalServerError
  | notFound
  | unauthorized
  | unknownError
  | notImplemented
deriving DecidableEq, Repr

/-- The Go `error` values this file can return. -/
inductive NodeErr where
  /-- a transport-level error returned by `api.HTTPClient.Do` -/
  | transport (msg : String)
  /-- a `json.Marshal` error on the request object -/
  | marshalReq (msg : String)
  /-- `fmt.Errorf("unable to read response body: %w", err)` -/
  | readBody (msg : String)
  /-- a raw `json.Unmarshal` error, returned unwrapped from the
  success-envelope branch of `interpretBody` -/
  | jsonError (msg : String)
  /-- `fmt.Errorf("unable to read error from response body: %w", err)` -/
  | errBodyDecode (msg : String)
  /-- `fmt.Errorf("%w: url %s, error message: %s", err, url, msg)` where
  `err` is one of the `ErrHTTP*` sentinels -/
  | httpStatus (kind : HTTPErrKind) (url : String) (message : String)
  /-- an error returned by the `ToMessages` transform that `MessagesByHash`
  calls (the transform itself is defined outside the analysed file) -/
  | toMessages (msg : String)
deriving DecidableEq, Repr

/-- The `httpCodeToErr` map of the source (insertion order as written). -/
def httpCodeToErr (code : Nat) : Option HTTPErrKind :=
  if code = 400 then some .badRequest
  else if code = 500 then some .internalServerError
  else if code = 404 then some .notFound
  else if code = 401 then some .unauthorized
  else if code = 501 then some .notImplemented
  else none

/-- Follows the spec's words (the error-kind table of spec section 7):
400 -> bad request, 401 -> unauthorized, 404 -> not found,
500 -> internal server error, 501 -> not implemented, other -> unknown
error.  Kept separate from `httpCodeToErr` so the source mapping can be
compared against the spec's table. -/
def specStatusToKind (code : Nat) : HTTPErrKind :=
  if code = 400 then .badRequest
  else if code = 401 then .unauthorized
  else if code = 404 then .notFound
  else if code = 500 then .internalServerError
  else if code = 501 then .notImplemented
  else .unknownError

/-- The decoded `error` field of `httperrresponse`. -/
structure ErrEnvelope where
  code : Int
  message : String
deriving DecidableEq, Repr

/-- Decode a JSON value into a Go `int` field, merging into the current
value (`null` is a no-op, as in `encoding/json`). -/
def decIntField (v : Json) (cur : Int) : Except String Int :=
  match v with
  | .num n => .ok n
  | .null => .ok cur
  | _ => .error "json: cannot unmarshal value into Go int field"

/-- Decode a JSON value into a Go `string` field. -/
def decStrField (v : Json) (cur : String) : Except String String :=
  match v with
  | .str s => .ok s
  | .null => .ok cur
  | _ => .error "json: cannot unmarshal value into Go string field"

/-- Decode a JSON value into a Go `bool` field. -/
def decBoolField (v : Json) (cur : Bool) : Except String Bool :=
  match v with
  | .bool b => .ok b
  | .null => .ok cur
  | _ => .error "json: cannot unmarshal value into Go bool field"

/-- Decode a JSON value into a Go `uint64` field (negative numbers are
rejected by `encoding/json`). -/
def decUInt64Field (v : Json) (cur : Nat) : Except String Nat :=
  match v with
  | .num n => if n < 0 then .error "json: cannot unmarshal negative value into Go uint64 field" else .ok n.toNat
  | .null => .ok cur
  | _ => .error "json: cannot unmarshal value into Go uint64 field"

/-- Decode one element of a JSON array into a Go `string` (a fresh element
starts from the zero value, so `null` yields the empty string). -/
def decStrElem (v : Json) : Except String String :=
  match v with
  | .str s => .ok s
  | .null => .ok ""
  | _ => .error "json: cannot unmarshal value into Go string element"

/-- Decode a JSON value into a Go `[]string` field. -/
def decStrListField (v : Json) (cur : List String) : Except String (List String) :=
  match v with
  | .arr xs => xs.mapM decStrElem
  | .null => .ok cur
  | _ => .error "json: cannot unmarshal value into Go string-slice field"

/-- Unmarshal the inner struct of `httperrresponse` (fields `code` and
`message`), merging into the current value. -/
def decErrInner (v : Json) (cur : ErrEnvelope) : Except String ErrEnvelope :=
  match v with
  | .null => .ok cur
  | .obj fields =>
    match
      (match lookupField fields "code" with
       | none => Except.ok cur.code
       | some jv => decIntField jv cur.code) with
    | .error e => .error e
    | .ok c =>
      match
        (match lookupField fields "message" with
         | none => Except.ok cur.message
         | some jv => decStrField jv cur.message) with
      | .error e => .error e
      | .ok m => .ok ⟨c, m⟩
  | _ => .error "json: cannot unmarshal value into Go struct"

/-- Unmarshal a body into `httperrresponse` (`errRes := &httperrresponse{}`
followed by `json.Unmarshal(resBody, errRes)`). -/
def unmarshalErrEnvelope (raw : RawBody) : Except String ErrEnvelope :=
  match raw with
  | .malformed text => .error ("invalid character in " ++ text)
  | .json .null => .ok ⟨0, ""⟩
  | .json (.obj fields) =>
    match lookupField fields "error" with
    | none => .ok ⟨0, ""⟩
    | some v => decErrInner v ⟨0, ""⟩
  | .json _ => .error "json: cannot unmarshal value into Go struct httperrresponse"

/-- The caller-supplied decode target for the `data` field of
`httpokresponse`: the value `decodeTo` held in the envelope's `Data`
interface field, together with how `encoding/json` writes the `data` JSON
value into it. -/
structure DataTarget (α : Type) where
  /-- the value the caller placed in the interface (for a pointer target,
  the pointed-to zero value) -/
  init : α
  /-- unmarshal a JSON value into the current value -/
  dec : Json → α → Except String α

/-- Unmarshal a body into `httpokresponse` with `Data` set to the given
target (`okRes := &httpokresponse{Data: decodeTo}` followed by
`json.Unmarshal(resBody, okRes)`); Go ignores unknown keys and requires a
`null` or object top level for a struct target. -/
def unmarshalOk {α : Type} (raw : RawBody) (t : DataTarget α) : Except String α :=
  match raw with
  | .malformed text => .error ("invalid character in " ++ text)
  | .json .null => .ok t.init
  | .json (.obj fields) =>
    match lookupField fields "data" with
    | none => .ok t.init
    | some v => t.dec v t.init
  | .json _ => .error "json: cannot unmarshal value into Go struct httpokresponse"

/-- The response body stream: what `ioutil.ReadAll(res.Body)` would yield. -/
structure Body where
  content : Except String RawBody

/-- An `http.Response` as used by this file: status code, the URL of the
request that produced it (`res.Request.URL.String()`), and the body. -/
structure HTTPResponse where
  statusCode : Nat
  requestURL : String
  body : Body

/-- State of the response body when the call returns: whether it was fully
read, and whether it was closed. -/
structure BodyFinal where
  fullyRead : Bool
  closed : Bool
deriving DecidableEq, Repr

/-- Embedding of `interpretBody(res *http.Response, decodeTo interface{})`,
also returning the final body state.  The source reads the whole body
first, registers `defer res.Body.Close()` only after the read-error check
(so a failed read leaves the body unclosed), then branches on the status
code: 200/201 decode the success envelope, every other status decodes the
error envelope and maps the code through `httpCodeToErr`. -/
def interpretBody {α : Type} (res : HTTPResponse) (decodeTo : DataTarget α) :
    Except NodeErr α × BodyFinal :=
  match res.body.content with
  | .error e => (.error (.readBody e), ⟨false, false⟩)
  | .ok raw =>
    if res.statusCode = 200 ∨ res.statusCode = 201 then
      match unmarshalOk raw decodeTo with
      | .ok a => (.ok a, ⟨true, true⟩)
      | .error e => (.error (.jsonError e), ⟨true, true⟩)
    else
      match unmarshalErrEnvelope raw with
      | .error e => (.error (.errBodyDecode e), ⟨true, true⟩)
      | .ok env =>
        let kind := match httpCodeToErr res.statusCode with
          | some k => k
          | none => .unknownError
        (.error (.httpStatus kind res.requestURL env.message), ⟨true, true⟩)

/-- An `http.Request` as this file builds it. -/
structure HTTPRequest where
  method : String
  url : String
  data : Option Json
  contentType : Option String

/-- The client: the `NodeAPI` struct.  The `http.Client` transport is the
function `HTTPClient`, which either fails (connection refused, timeout,
DNS failure, ...) or produces a response. -/
structure NodeAPI where
  HTTPClient : HTTPRequest → Except NodeErr HTTPResponse
  BaseURL : String

/-- Marshalling step of `do`: `reqObj` is `nil`, or a request object whose
`json.Marshal` either succeeds with a JSON value or fails. -/
def marshalReqObj (reqObj : Option (Except String Json)) : Except NodeErr (Option Json) :=
  match reqObj with
  | none => .ok none
  | some (.ok j) => .ok (some j)
  | some (.error e) => .error (.marshalReq e)

/-- Request construction of `do`: URL is `BaseURL` concatenated with the
route, and the `Content-Type: application/json` header is set exactly when
a marshalled body is present. -/
def buildRequest (api : NodeAPI) (method route : String) (data : Option Json) : HTTPRequest :=
  { method := method
    url := api.BaseURL ++ route
    data := data
    contentType := if data.isSome then some "application/json" else none }

/-- Outcome of one generic request cycle: the returned `error` (if any),
the decoded response object (written through the caller's pointer, if any),
and the final state of the response body (`some` exactly when a response
was obtained from the transport). -/
structure DoOutcome (α : Type) where
  err : Option NodeErr
  decoded : Option α
  bodyFinal : Option BodyFinal

/-- Embedding of `(api *NodeAPI) do(method, route, reqObj, resObj)` (named
`doRequest` because `do` is a Lean keyword): marshal the request object,
build the request, run the transport, return immediately when no response
object is requested, otherwise interpret the body. -/
def NodeAPI.doRequest {α : Type} (api : NodeAPI) (method route : String)
    (reqObj : Option (Except String Json)) (resObj : Option (DataTarget α)) :
    DoOutcome α :=
  match marshalReqObj reqObj with
  | .error e => ⟨some e, none, none⟩
  | .ok data =>
    match api.HTTPClient (buildRequest api method route data) with
    | .error e => ⟨some e, none, none⟩
    | .ok res =>
      match resObj with
      | none => ⟨none, none, some ⟨false, false⟩⟩
      | some target =>
        match interpretBody res target with
        | (.ok a, bf) => ⟨none, some a, some bf⟩
        | (.error e, bf) => ⟨some e, none, some bf⟩

/-- The `NodeInfoResponse` struct. -/
structure NodeInfoResponse where
  name : String
  version : String
  isHealthy : Bool
  operatingNetwork : String
  peers : Int
  coordinatorAddress : String
  isSynced : Bool
  latestMilestoneHash : String
  latestMilestoneIndex : Nat
  latestSolidMilestoneHash : String
  latestSolidMilestoneIndex : Nat
  pruningIndex : Nat
  time : Nat
  features : List String
deriving Repr

/-- The zero value `&NodeInfoResponse{}` allocated by `Info`. -/
def zeroNodeInfo : NodeInfoResponse :=
  ⟨"", "", false, "", 0, "", false, "", 0, "", 0, 0, 0, []⟩

/-- Write one JSON object entry into a `NodeInfoResponse` by its field tag
(unknown keys are ignored, as in `encoding/json`). -/
def setNodeInfoField (key : String) (v : Json) (cur : NodeInfoResponse) :
    Except String NodeInfoResponse :=
  match key with
  | "name" => (decStrField v cur.name).map fun x => { cur with name := x }
  | "version" => (decStrField v cur.version).map fun x => { cur with version := x }
  | "isHealthy" => (decBoolField v cur.isHealthy).map fun x => { cur with isHealthy := x }
  | "operatingNetwork" => (decStrField v cur.operatingNetwork).map fun x => { cur with operatingNetwork := x }
  | "peers" => (decIntField v cur.peers).map fun x => { cur with peers := x }
  | "coordinatorAddress" => (decStrField v cur.coordinatorAddress).map fun x => { cur with coordinatorAddress := x }
  | "isSynced" => (decBoolField v cur.isSynced).map fun x => { cur with isSynced := x }
  | "latestMilestoneHash" => (decStrField v cur.latestMilestoneHash).map fun x => { cur with latestMilestoneHash := x }
  | "latestMilestoneIndex" => (decUInt64Field v cur.latestMilestoneIndex).map fun x => { cur with latestMilestoneIndex := x }
  | "latestSolidMilestoneHash" => (decStrField v cur.latestSolidMilestoneHash).map fun x => { cur with latestSolidMilestoneHash := x }
  | "latestSolidMilestoneIndex" => (decUInt64Field v cur.latestSolidMilestoneIndex).map fun x => { cur with latestSolidMilestoneIndex := x }
  | "pruningIndex" => (decUInt64Field v cur.pruningIndex).map fun x => { cur with pruningIndex := x }
  | "time" => (decUInt64Field v cur.time).map fun x => { cur with time := x }
  | "features" => (decStrListField v cur.features).map fun x => { cur with features := x }
  | _ => .ok cur

/-- Apply the entries of a JSON object to a `NodeInfoResponse` in body
order. -/
def applyNodeInfoFields (fields : List (String × Json)) (cur : NodeInfoResponse) :
    Except String NodeInfoResponse :=
  match fields with
  | [] => .ok cur
  | (k, v) :: rest =>
    match setNodeInfoField k v cur with
    | .error e => .error e
    | .ok cur2 => applyNodeInfoFields rest cur2

/-- Unmarshal a JSON value into a `NodeInfoResponse` (the `data` decode of
`Info`). -/
def decodeNodeInfo (v : Json) (cur : NodeInfoResponse) : Except String NodeInfoResponse :=
  match v with
  | .null => .ok cur
  | .obj fields => applyNodeInfoFields fields cur
  | _ => .error "json: cannot unmarshal value into Go struct NodeInfoResponse"

/-- The `NodeTipsResponse` struct. -/
structure NodeTipsResponse where
  tip1 : String
  tip2 : String
deriving DecidableEq, Repr

/-- The zero value `&NodeTipsResponse{}` allocated by `Tips`. -/
def zeroNodeTips : NodeTipsResponse := ⟨"", ""⟩

/-- Unmarshal a JSON value into a `NodeTipsResponse` (the `data` decode of
`Tips`). -/
def decodeNodeTips (v : Json) (cur : NodeTipsResponse) : Except String NodeTipsResponse :=
  match v with
  | .null => .ok cur
  | .obj fields =>
    match
      (match lookupField fields "tip1" with
       | none => Except.ok cur.tip1
       | some jv => decStrField jv cur.tip1) with
    | .error e => .error e
    | .ok t1 =>
      match
        (match lookupField fields "tip2" with
         | none => Except.ok cur.tip2
         | some jv => decStrField jv cur.tip2) with
      | .error e => .error e
      | .ok t2 => .ok ⟨t1, t2⟩
  | _ => .error "json: cannot unmarshal value into Go struct NodeTipsResponse"

/-- The `NodeObjectReferencedResponse` struct. -/
structure NodeObjectReferencedResponse where
  isReferencedByMilestone : Bool
  milestoneIndex : Nat
  milestoneTimestamp : Nat
deriving DecidableEq, Repr

/-- The `NodeOutputResponse` struct. -/
structure NodeOutputResponse where
  address : String
  amount : Nat
  spent : Bool
deriving DecidableEq, Repr

/-- The `data` target used when an endpoint passes a NON-POINTER nil slice
(`var res []T` handed to `do` as `resObj`): the slice value is copied into
the envelope's `Data` interface field, so `encoding/json` decodes the
`data` JSON value into a fresh generic value (which succeeds for every JSON
value) and the caller's slice variable is never written.  The target is
therefore modelled with a unit value that the decode leaves unchanged. -/
def sliceByValueTarget : DataTarget Unit := ⟨(), fun _ u => .ok u⟩

/-- Modelled from the spec: a hash/ID is defined outside the analysed file;
the spec's external collaborator is "a hash/ID-to-hex-string encoder" and
hash lists are serialized "using their hexadecimal text representation".
A hash is modelled as its byte sequence. -/
abbrev Hash : Type := List Nat

/-- `MessageHashes`, defined outside the analysed file. -/
abbrev MessageHashes : Type := List Hash

/-- `SignedTransactionPayloadHashes`, defined outside the analysed file. -/
abbrev SignedTransactionPayloadHashes : Type := List Hash

/-- `UTXOInputIDs`, defined outside the analysed file. -/
abbrev UTXOInputIDs : Type := List Hash

/-- Hexadecimal digit for a value below 16 (lowercase). -/
def hexDigit (n : Nat) : Char :=
  if n < 10 then Char.ofNat (48 + n) else Char.ofNat (97 + (n - 10))

/-- Two-digit lowercase hexadecimal rendering of one byte. -/
def byteToHex (b : Nat) : String :=
  String.mk [hexDigit (b / 16 % 16), hexDigit (b % 16)]

/-- Modelled from the spec: the hexadecimal text representation of one
hash/ID (the encoder itself lives outside the analysed file). -/
def hashToHex (h : Hash) : String :=
  String.join (h.map byteToHex)

/-- Modelled from the spec: `HashesToHex` (defined outside the analysed
file) renders each hash of the list in hexadecimal. -/
def HashesToHex (hashes : List Hash) : List String :=
  hashes.map hashToHex

/-- Modelled from the spec: `UTXOInputIDs.ToHex` (defined outside the
analysed file) renders each ID of the list in hexadecimal. -/
def UTXOInputIDsToHex (ids : UTXOInputIDs) : List String :=
  ids.map hashToHex

/-- Route built by `MessagesByHash` (its two `strings.Builder` writes). -/
def messagesByHashRoute (hashes : MessageHashes) : String :=
  "/messages/by-hash?hashes=" ++ String.intercalate "," (HashesToHex hashes)

/-- Route built by `AreMessagesReferencedByMilestone`. -/
def areMessagesReferencedRoute (hashes : MessageHashes) : String :=
  "/messages/by-hash/is-referenced-by-milestone?hashes=" ++ String.intercalate "," (HashesToHex hashes)

/-- Route built by `AreTransactionsReferencedByMilestone`. -/
def areTransactionsReferencedRoute (hashes : SignedTransactionPayloadHashes) : String :=
  "/transaction-messages/is-confirmed?hashes=" ++ String.intercalate "," (HashesToHex hashes)

/-- Route built by `OutputsByHash`. -/
def outputsByHashRoute (utxosID : UTXOInputIDs) : String :=
  "/outputs/by-hash?hashes=" ++ String.intercalate "," (UTXOInputIDsToHex utxosID)

/-- Embedding of `(api *NodeAPI) Info()`: allocate the zero response, run
the cycle with the response pointer as decode target, return `(nil, err)`
on error and `(res, nil)` on success. -/
def NodeAPI.Info (api : NodeAPI) : Option NodeInfoResponse × Option NodeErr :=
  let out := api.doRequest "GET" "/info" none (some ⟨zeroNodeInfo, decodeNodeInfo⟩)
  match out.err with
  | some e => (none, some e)
  | none => (out.decoded, none)

/-- Embedding of `(api *NodeAPI) Tips()`. -/
def NodeAPI.Tips (api : NodeAPI) : Option NodeTipsResponse × Option NodeErr :=
  let out := api.doRequest "GET" "/tips" none (some ⟨zeroNodeTips, decodeNodeTips⟩)
  match out.err with
  | some e => (none, some e)
  | none => (out.decoded, none)

/-- Modelled from the spec: the type `JSONNodeMessages` is defined outside
the analysed file; `MessagesByHash` allocates it with `var res
JSONNodeMessages` (a nil non-pointer slice, like the other slice
endpoints), so it is modelled as a list of raw JSON messages. -/
abbrev JSONNodeMessages : Type := List Json

/-- Modelled from the spec: a decoded `Message` is defined outside the
analysed file; it is modelled as carrying its raw JSON form. -/
structure Message where
  raw : Json

/-- Modelled from the spec: one step of the "raw-JSON-to-domain-object
decoder for message lists" — a raw entry that is a JSON object decodes,
anything else fails. -/
def messageFromJSON (j : Json) : Except String Message :=
  match j with
  | .obj fields => .ok ⟨.obj fields⟩
  | _ => .error "invalid raw message"

/-- Modelled from the spec: the `ToMessages` transform (defined outside
the analysed file), "a raw-JSON-to-domain-object decoder for message
lists"; per the spec's no-partial-success rule it yields either the full
decoded list or an error, never a partial result. -/
def ToMessages (l : JSONNodeMessages) : Except String (List Message) :=
  l.mapM messageFromJSON

/-- Embedding of `(api *NodeAPI) MessagesByHash(hashes)`: the nil
`JSONNodeMessages` slice is handed to `do` by value, and on success the
method returns `res.ToMessages()`. -/
def NodeAPI.MessagesByHash (api : NodeAPI) (hashes : MessageHashes) :
    Option (List Message) × Option NodeErr :=
  let res : JSONNodeMessages := []
  let out := api.doRequest "GET" (messagesByHashRoute hashes) none (some sliceByValueTarget)
  match out.err with
  | some e => (none, some e)
  | none =>
    match ToMessages res with
    | .error e => (none, some (.toMessages e))
    | .ok msgs => (some msgs, none)

/-- Embedding of `(api *NodeAPI) AreMessagesReferencedByMilestone(hashes)`:
`var res []NodeObjectReferencedResponse` is a nil slice handed to `do` BY
VALUE (not by pointer), so the decode never writes into it; the method
returns that same slice on success. -/
def NodeAPI.AreMessagesReferencedByMilestone (api : NodeAPI) (hashes : MessageHashes) :
    Option (List NodeObjectReferencedResponse) × Option NodeErr :=
  let res : List NodeObjectReferencedResponse := []
  let out := api.doRequest "GET" (areMessagesReferencedRoute hashes) none (some sliceByValueTarget)
  match out.err with
  | some e => (none, some e)
  | none => (some res, none)

/-- Embedding of `(api *NodeAPI) AreTransactionsReferencedByMilestone(hashes)`;
same nil-slice-by-value decode target as the messages variant. -/
def NodeAPI.AreTransactionsReferencedByMilestone (api : NodeAPI)
    (hashes : SignedTransactionPayloadHashes) :
    Option (List NodeObjectReferencedResponse) × Option NodeErr :=
  let res : List NodeObjectReferencedResponse := []
  let out := api.doRequest "GET" (areTransactionsReferencedRoute hashes) none (some sliceByValueTarget)
  match out.err with
  | some e => (none, some e)
  | none => (some res, none)

/-- Embedding of `(api *NodeAPI) OutputsByHash(utxosID)`; same
nil-slice-by-value decode target. -/
def NodeAPI.OutputsByHash (api : NodeAPI) (utxosID : UTXOInputIDs) :
    Option (List NodeOutputResponse) × Option NodeErr :=
  let res : List NodeOutputResponse := []
  let out := api.doRequest "GET" (outputsByHashRoute utxosID) none (some sliceByValueTarget)
  match out.err with
  | some e => (none, some e)
  | none => (some res, none)

/-! Concrete fixtures for witnesses and counterexamples. -/

/-- A `data` decode target for `Tips` (`&NodeTipsResponse{}`). -/
def tipsTarget : DataTarget NodeTipsResponse := ⟨zeroNodeTips, decodeNodeTips⟩

/-- A well-formed tips success body. -/
def tipsBodyEx : RawBody :=
  .json (.obj [("data", .obj [("tip1", .str "aa"), ("tip2", .str "bb")])])

/-- A well-formed error envelope body with message "oops". -/
def errBodyEx : RawBody :=
  .json (.obj [("error", .obj [("code", .num 13), ("message", .str "oops")])])

/-- A client whose transport always fails with a connection-refused error. -/
def apiFail : NodeAPI :=
  ⟨fun _ => .error (.transport "connection refused"), "http://node"⟩

/-- A client whose transport always answers 200 with the JSON body `null`. -/
def api200null : NodeAPI :=
  ⟨fun req => .ok ⟨200, req.url, ⟨.ok (.json .null)⟩⟩, "http://node"⟩

/-- One referenced-status object as the server would serialize it. -/
def refStatusJson : Json :=
  .obj [("isReferencedByMilestone", .bool true), ("milestoneIndex", .num 5),
        ("milestoneTimestamp", .num 6)]

/-- A client whose transport answers 200 with a `data` array holding three
referenced-status objects. -/
def apiThreeRefs : NodeAPI :=
  ⟨fun req => .ok ⟨200, req.url, ⟨.ok (.json (.obj [("data",
      .arr [refStatusJson, refStatusJson, refStatusJson])]))⟩⟩, "http://node"⟩

/-- Three one-byte message hashes. -/
def threeHashes : MessageHashes := [[1], [2], [3]]

/-! Theorems. -/

/-- The source's `httpCodeToErr` lookup with the `!ok` fallback to
`ErrHTTPUnknownError` agrees with the spec's status-to-kind table. -/
theorem codeToKind_eq_spec (code : Nat) :
    (match httpCodeToErr code with
     | some k => k
     | none => HTTPErrKind.unknownError) = specStatusToKind code := by
  unfold httpCodeToErr specStatusToKind
  split_ifs <;> first | rfl | omega

/-- C1: for every response with a status code other than 200 and 201 whose
body decodes as an error envelope, `interpretBody` returns an error whose
kind is the spec's status-to-kind mapping (400 bad request, 401
unauthorized, 404 not found, 500 internal server error, 501 not
implemented, otherwise unknown error), carrying the request URL and the
server-supplied message. -/
theorem c1_status_kind_mapping {α : Type} (code : Nat) (url : String)
    (raw : RawBody) (env : ErrEnvelope) (t : DataTarget α)
    (h200 : code ≠ 200) (h201 : code ≠ 201)
    (henv : unmarshalErrEnvelope raw = .ok env) :
    (interpretBody ⟨code, url, ⟨.ok raw⟩⟩ t).1 =
      .error (.httpStatus (specStatusToKind code) url env.message) := by
  have hk := codeToKind_eq_spec code
  simp [interpretBody, h200, h201, henv, hk]

/-- Witness for C1: a concrete 404 response with a valid error envelope
yields the not-found kind with the URL and the server message. -/
theorem c1_witness :
    unmarshalErrEnvelope errBodyEx = .ok ⟨13, "oops"⟩ ∧
    (interpretBody ⟨404, "http://node/info", ⟨.ok errBodyEx⟩⟩ tipsTarget).1 =
      .error (.httpStatus (specStatusToKind 404) "http://node/info" "oops") :=
  ⟨rfl, c1_status_kind_mapping 404 "http://node/info" errBodyEx ⟨13, "oops"⟩
    tipsTarget (by decide) (by decide) rfl⟩

/-- C2, evaluation at the failing input: three hashes against a server that
answers 200 with a three-element `data` array still yield a nil (empty)
result slice, because `var res []NodeObjectReferencedResponse` is handed to
the cycle by value, contradicting the method's own documentation ("The
response slice is ordered by the provided input hashes"). -/
theorem c2_code_bug_eval :
    threeHashes.length = 3 ∧
    apiThreeRefs.AreMessagesReferencedByMilestone threeHashes = (some [], none) ∧
    ((apiThreeRefs.AreMessagesReferencedByMilestone threeHashes).1.getD []).length = 0 :=
  ⟨rfl, rfl, rfl⟩

/-- C3: for every response with status 200 or 201, `interpretBody` is the
success-envelope decode into the caller-supplied target (its failure is
returned as the raw unmarshal error), a 201 response is treated exactly
like a 200 response, and neither a mapped status error nor the
error-envelope-decode error can be produced. -/
theorem c3_success_envelope {α : Type} (code : Nat) (url : String)
    (raw : RawBody) (t : DataTarget α) (h : code = 200 ∨ code = 201) :
    ((interpretBody ⟨code, url, ⟨.ok raw⟩⟩ t).1 =
      match unmarshalOk raw t with
      | .ok a => .ok a
      | .error e => .error (.jsonError e)) ∧
    interpretBody ⟨201, url, ⟨.ok raw⟩⟩ t = interpretBody ⟨200, url, ⟨.ok raw⟩⟩ t ∧
    (∀ k u m, (interpretBody ⟨code, url, ⟨.ok raw⟩⟩ t).1 ≠ .error (.httpStatus k u m)) ∧
    (∀ e, (interpretBody ⟨code, url, ⟨.ok raw⟩⟩ t).1 ≠ .error (.errBodyDecode e)) := by
  refine ⟨?_, ?_, ?_, ?_⟩
  · cases hu : unmarshalOk raw t <;> simp [interpretBody, h, hu]
  · simp [interpretBody]
  · intro k u m
    cases hu : unmarshalOk raw t <;> simp [interpretBody, h, hu]
  · intro e
    cases hu : unmarshalOk raw t <;> simp [interpretBody, h, hu]

/-- Witness for C3: a concrete 200 response whose body carries a tips
object decodes into the tips target. -/
theorem c3_witness :
    ((interpretBody ⟨200, "http://node/tips", ⟨.ok tipsBodyEx⟩⟩ tipsTarget).1 =
      match unmarshalOk tipsBodyEx tipsTarget with
      | .ok a => .ok a
      | .error e => .error (.jsonError e)) ∧
    (interpretBody ⟨200, "http://node/tips", ⟨.ok tipsBodyEx⟩⟩ tipsTarget).1 =
      .ok ⟨"aa", "bb"⟩ :=
  ⟨(c3_success_envelope 200 "http://node/tips" tipsBodyEx tipsTarget (Or.inl rfl)).1,
   rfl⟩

/-- C4: for every response with a status code other than 200 and 201 whose
body does not unmarshal as the error envelope, `interpretBody` returns the
distinct "unable to read error from response body" error wrapping the
decode failure, never a mapped status error. -/
theorem c4_error_body_decode {α : Type} (code : Nat) (url : String)
    (raw : RawBody) (e : String) (t : DataTarget α)
    (h200 : code ≠ 200) (h201 : code ≠ 201)
    (herr : unmarshalErrEnvelope raw = .error e) :
    (interpretBody ⟨code, url, ⟨.ok raw⟩⟩ t).1 = .error (.errBodyDecode e) ∧
    ∀ k u m, (interpretBody ⟨code, url, ⟨.ok raw⟩⟩ t).1 ≠ .error (.httpStatus k u m) := by
  refine ⟨?_, ?_⟩
  · simp [interpretBody, h200, h201, herr]
  · intro k u m
    simp [interpretBody, h200, h201, herr]

/-- Witness for C4: a concrete 404 response whose body is not JSON yields
the error-body-decode error. -/
theorem c4_witness :
    unmarshalErrEnvelope (.malformed "<html>") = .error "invalid character in <html>" ∧
    (interpretBody ⟨404, "http://node/info", ⟨.ok (.malformed "<html>")⟩⟩ tipsTarget).1 =
      .error (.errBodyDecode "invalid character in <html>") :=
  ⟨rfl, (c4_error_body_decode 404 "http://node/info" (.malformed "<html>")
    "invalid character in <html>" tipsTarget (by decide) (by decide) rfl).1⟩

/-- C5: whenever the transport fails to produce a response, the generic
cycle returns that transport error unchanged, with nothing decoded and no
body ever obtained, read or mapped. -/
theorem c5_transport_error {α : Type} (api : NodeAPI) (method route : String)
    (reqObj : Option (Except String Json)) (resObj : Option (DataTarget α))
    (d : Option Json) (e : NodeErr)
    (hm : marshalReqObj reqObj = .ok d)
    (ht : api.HTTPClient (buildRequest api method route d) = .error e) :
    api.doRequest method route reqObj resObj = ⟨some e, none, none⟩ := by
  simp [NodeAPI.doRequest, hm, ht]

/-- Witness for C5: a concrete connection-refused transport propagates
unchanged through the cycle. -/
theorem c5_witness :
    apiFail.doRequest "GET" "/info" none (none : Option (DataTarget Unit)) =
      ⟨some (.transport "connection refused"), none, none⟩ :=
  c5_transport_error apiFail "GET" "/info" none none none
    (.transport "connection refused") rfl rfl

/-- C6, counterexample to the claim as stated: a call that obtains an HTTP
response but requests no response object returns with the body neither
fully read nor closed, so the body is NOT released on every code path of a
call that obtains a response. -/
theorem c6_counterexample :
    (api200null.doRequest "GET" "/health" none
      (none : Option (DataTarget Unit))).bodyFinal = some ⟨false, false⟩ :=
  rfl

/-- C6 as amended: when a response object is requested and the body read
succeeds, the body is fully read and closed before `interpretBody` returns
on every branch (success, decode failure, mapped error); but when the body
read fails the body is left unclosed (the close is registered only after
the read-error check), and when no response object is requested the body
is neither read nor closed. -/
theorem c6_body_lifecycle {α : Type} (t : DataTarget α) :
    (∀ (code : Nat) (url : String) (raw : RawBody),
      (interpretBody ⟨code, url, ⟨.ok raw⟩⟩ t).2 = ⟨true, true⟩) ∧
    (∀ (code : Nat) (url e : String),
      (interpretBody ⟨code, url, ⟨.error e⟩⟩ t).2 = ⟨false, false⟩) ∧
    (∀ (api : NodeAPI) (method route : String)
      (reqObj : Option (Except String Json)) (d : Option Json) (res : HTTPResponse),
      marshalReqObj reqObj = .ok d →
      api.HTTPClient (buildRequest api method route d) = .ok res →
      (NodeAPI.doRequest (α := α) api method route reqObj none).bodyFinal =
        some ⟨false, false⟩) := by
  refine ⟨?_, ?_, ?_⟩
  · intro code url raw
    by_cases h : code = 200 ∨ code = 201
    · cases hu : unmarshalOk raw t <;> simp [interpretBody, h, hu]
    · cases he : unmarshalErrEnvelope raw <;> simp [interpretBody, h, he]
  · intro code url e
    simp [interpretBody]
  · intro api method route reqObj d res hm ht
    simp [NodeAPI.doRequest, hm, ht]

/-- Witness for C6 (amended): the body is read and closed for a concrete
200 call with a requested target, and left untouched for a concrete call
with no requested target. -/
theorem c6_witness :
    (interpretBody ⟨200, "http://node/x", ⟨.ok (.json .null)⟩⟩ tipsTarget).2 =
      ⟨true, true⟩ ∧
    (api200null.doRequest "GET" "/metrics" none
      (none : Option (DataTarget NodeTipsResponse))).bodyFinal = some ⟨false, false⟩ :=
  ⟨(c6_body_lifecycle tipsTarget).1 200 "http://node/x" (.json .null),
   (c6_body_lifecycle tipsTarget).2.2 api200null "GET" "/metrics" none none
     ⟨200, "http://node/metrics", ⟨.ok (.json .null)⟩⟩ rfl rfl⟩

/-- C7: when the caller requests no response object, the generic cycle
returns success immediately after a successful transport call, for every
response status and body, and the body is neither read nor decoded. -/
theorem c7_fire_and_forget {α : Type} (api : NodeAPI) (method route : String)
    (reqObj : Option (Except String Json)) (d : Option Json) (res : HTTPResponse)
    (hm : marshalReqObj reqObj = .ok d)
    (ht : api.HTTPClient (buildRequest api method route d) = .ok res) :
    NodeAPI.doRequest (α := α) api method route reqObj none =
      ⟨none, none, some ⟨false, false⟩⟩ := by
  simp [NodeAPI.doRequest, hm, ht]

/-- Witness for C7: a concrete fire-and-forget call against a server that
answers 200 with a bodiless (`null`) payload returns success. -/
theorem c7_witness :
    api200null.doRequest "GET" "/x" none (none : Option (DataTarget Unit)) =
      ⟨none, none, some ⟨false, false⟩⟩ :=
  c7_fire_and_forget api200null "GET" "/x" none none
    ⟨200, "http://node/x", ⟨.ok (.json .null)⟩⟩ rfl rfl

/-- C8: every list endpoint's route is its fixed path, then the literal
`?hashes=`, then the comma-separated hexadecimal renderings of the inputs
in input order; an empty input list leaves the query value empty (the
parameter is still sent). -/
theorem c8_route_serialization (hashes : MessageHashes)
    (txs : SignedTransactionPayloadHashes) (ids : UTXOInputIDs) :
    messagesByHashRoute hashes =
      "/messages/by-hash" ++ "?hashes=" ++ String.intercalate "," (HashesToHex hashes) ∧
    areMessagesReferencedRoute hashes =
      "/messages/by-hash/is-referenced-by-milestone" ++ "?hashes=" ++
        String.intercalate "," (HashesToHex hashes) ∧
    areTransactionsReferencedRoute txs =
      "/transaction-messages/is-confirmed" ++ "?hashes=" ++
        String.intercalate "," (HashesToHex txs) ∧
    outputsByHashRoute ids =
      "/outputs/by-hash" ++ "?hashes=" ++ String.intercalate "," (UTXOInputIDsToHex ids) ∧
    (∀ i : Nat, (HashesToHex hashes)[i]? = (hashes[i]?).map hashToHex) ∧
    messagesByHashRoute [] = "/messages/by-hash" ++ "?hashes=" ∧
    areMessagesReferencedRoute [] = "/messages/by-hash/is-referenced-by-milestone" ++ "?hashes=" ∧
    areTransactionsReferencedRoute [] = "/transaction-messages/is-confirmed" ++ "?hashes=" ∧
    outputsByHashRoute [] = "/outputs/by-hash" ++ "?hashes=" :=
  ⟨rfl, rfl, rfl, rfl,
   fun i => by simp [HashesToHex], rfl, rfl, rfl, rfl⟩

/-- When a response target is supplied and the cycle reports no error, the
decode target was produced. -/
theorem doRequest_err_none_decoded {α : Type} (api : NodeAPI) (m r : String)
    (ro : Option (Except String Json)) (t : DataTarget α)
    (h : (api.doRequest m r ro (some t)).err = none) :
    (api.doRequest m r ro (some t)).decoded.isSome := by
  unfold NodeAPI.doRequest at h ⊢
  cases hm : marshalReqObj ro with
  | error e => simp [hm] at h
  | ok d =>
    cases ht : api.HTTPClient (buildRequest api m r d) with
    | error e => simp [hm, ht] at h
    | ok res =>
      cases hi : interpretBody res t with
      | mk r' bf =>
        cases r' with
        | error e => simp [hm, ht, hi] at h
        | ok a => simp [hm, ht, hi]

/-- C9: every endpoint method is all-or-nothing: the result object is
present exactly when the returned error is absent, for `Info`, `Tips`,
`MessagesByHash`, `AreMessagesReferencedByMilestone`,
`AreTransactionsReferencedByMilestone` and `OutputsByHash`. -/
theorem c9_all_or_nothing (api : NodeAPI) (hashes : MessageHashes)
    (txs : SignedTransactionPayloadHashes) (ids : UTXOInputIDs) :
    ((api.Info).1.isSome ↔ (api.Info).2 = none) ∧
    ((api.Tips).1.isSome ↔ (api.Tips).2 = none) ∧
    ((api.MessagesByHash hashes).1.isSome ↔ (api.MessagesByHash hashes).2 = none) ∧
    ((api.AreMessagesReferencedByMilestone hashes).1.isSome ↔
      (api.AreMessagesReferencedByMilestone hashes).2 = none) ∧
    ((api.AreTransactionsReferencedByMilestone txs).1.isSome ↔
      (api.AreTransactionsReferencedByMilestone txs).2 = none) ∧
    ((api.OutputsByHash ids).1.isSome ↔ (api.OutputsByHash ids).2 = none) := by
  refine ⟨?_, ?_, ?_, ?_, ?_, ?_⟩
  · have hd := doRequest_err_none_decoded api "GET" "/info" none
      ⟨zeroNodeInfo, decodeNodeInfo⟩
    unfold NodeAPI.Info
    cases he : (api.doRequest "GET" "/info" none
        (some ⟨zeroNodeInfo, decodeNodeInfo⟩)).err with
    | some e => simp [he]
    | none => simp [he, hd he]
  · have hd := doRequest_err_none_decoded api "GET" "/tips" none
      ⟨zeroNodeTips, decodeNodeTips⟩
    unfold NodeAPI.Tips
    cases he : (api.doRequest "GET" "/tips" none
        (some ⟨zeroNodeTips, decodeNodeTips⟩)).err with
    | some e => simp [he]
    | none => simp [he, hd he]
  · unfold NodeAPI.MessagesByHash
    cases he : (api.doRequest "GET" (messagesByHashRoute hashes) none
        (some sliceByValueTarget)).err <;>
      simp [he, ToMessages, List.mapM.loop, pure, Except.pure]
  · unfold NodeAPI.AreMessagesReferencedByMilestone
    cases he : (api.doRequest "GET" (areMessagesReferencedRoute hashes) none
        (some sliceByValueTarget)).err <;> simp [he]
  · unfold NodeAPI.AreTransactionsReferencedByMilestone
    cases he : (api.doRequest "GET" (areTransactionsReferencedRoute txs) none
        (some sliceByValueTarget)).err <;> simp [he]
  · unfold NodeAPI.OutputsByHash
    cases he : (api.doRequest "GET" (outputsByHashRoute ids) none
        (some sliceByValueTarget)).err <;> simp [he]

/-- C10: the three endpoints that hand their nil result slice to the cycle
by value return a nil (empty) slice whenever they return no error,
whatever the server's 2xx body contained. -/
theorem c10_nil_slice_by_value (api : NodeAPI) (hashes : MessageHashes)
    (txs : SignedTransactionPayloadHashes) (ids : UTXOInputIDs) :
    ((api.AreMessagesReferencedByMilestone hashes).2 = none →
      (api.AreMessagesReferencedByMilestone hashes).1 = some []) ∧
    ((api.AreTransactionsReferencedByMilestone txs).2 = none →
      (api.AreTransactionsReferencedByMilestone txs).1 = some []) ∧
    ((api.OutputsByHash ids).2 = none →
      (api.OutputsByHash ids).1 = some []) := by
  refine ⟨?_, ?_, ?_⟩
  · unfold NodeAPI.AreMessagesReferencedByMilestone
    cases he : (api.doRequest "GET" (areMessagesReferencedRoute hashes) none
        (some sliceByValueTarget)).err <;> simp [he]
  · unfold NodeAPI.AreTransactionsReferencedByMilestone
    cases he : (api.doRequest "GET" (areTransactionsReferencedRoute txs) none
        (some sliceByValueTarget)).err <;> simp [he]
  · unfold NodeAPI.OutputsByHash
    cases he : (api.doRequest "GET" (outputsByHashRoute ids) none
        (some sliceByValueTarget)).err <;> simp [he]

/-- Witness for C10: a concrete successful call whose 200 body holds a
non-empty `data` array still returns the nil slice. -/
theorem c10_witness :
    (apiThreeRefs.AreMessagesReferencedByMilestone [[7]]).2 = none ∧
    (apiThreeRefs.AreMessagesReferencedByMilestone [[7]]).1 = some [] :=
  ⟨rfl, (c10_nil_slice_by_value apiThreeRefs [[7]] [] []).1 rfl⟩

end Iota
